import Mathlib

/-!
Shallow embedding of the Wi-Fi Direct P2P echo sample
(src/wifi_p2p_utils.c, src/udp_utils.c, src/main.c) and proofs about it.

Conventions of the embedding:
* C machine integers are modelled as `Nat` / `Int`.  The statistics counters
  are `uint32_t` in the source; all claims checked here concern runs whose
  counter values stay far below `2^32` (each loop iteration adds at most 1,
  and bounded-count runs perform at most `count < 2^32` iterations), so no
  wraparound is reachable in the statements proved and the counters are
  embedded as plain `Nat`.
* The asynchronous environment (net_mgmt call results, received datagrams,
  semaphore-wait outcomes, the volatile stop flag) is passed in explicitly
  as oracle data, one entry per interaction with the outside world.
* Global mutable state (`p2p_ctx` in wifi_p2p_utils.c, the `static`
  variables of main.c, the `struct udp_echo_stats`) is passed explicitly.
* Side effects that leave the program (semaphore gives `k_sem_give`,
  user-callback notifications, UDP send attempts) are returned as traces.
-/

/-! ## Errno constants (Zephyr uses the Linux errno numbering) -/

def ENODEV : Int := 19
def EINVAL : Int := 22
def eioCode : Int := 5
def ETIMEDOUT : Int := 116

/-! ## Data model from wifi_p2p_utils.h -/

/-- A 6-byte hardware (MAC) address, as stored in `uint8_t mac[6]`. -/
abbrev Mac : Type := List Nat

/-- The all-zero MAC written by `memset(p2p_ctx.peer_mac, 0, WIFI_MAC_ADDR_LEN)`. -/
def zeroMac : Mac := List.replicate 6 0

/-- enum wifi_p2p_role from wifi_p2p_utils.h. -/
inductive P2PRole
  | undetermined
  | go
  | cli
deriving DecidableEq, Repr

/-- enum wifi_p2p_state from wifi_p2p_utils.h. -/
inductive P2PState
  | idle
  | finding
  | found
  | connecting
  | connected
  | groupFormed
  | error
deriving DecidableEq, Repr

/-- enum wifi_p2p_event from wifi_p2p_utils.h (user-callback event kinds). -/
inductive P2PEvent
  | deviceFound
  | groupStarted
  | connected
  | connectFailed
  | peerJoined
  | apStaConnected
  | peerLeft
  | disconnected
deriving DecidableEq, Repr

/-- The five semaphores of wifi_p2p_utils.c (`K_SEM_DEFINE`). -/
inductive P2PGate
  | findSem
  | connectSem
  | groupFormedSem
  | goNegRequestSem
  | apStaConnectedSem
deriving DecidableEq, Repr

/-- struct wifi_p2p_device_info: MAC, device name, signal strength (dBm). -/
structure DeviceInfo where
  mac : Mac
  device_name : String
  rssi : Int
deriving DecidableEq, Repr

/-- struct wifi_p2p_context from wifi_p2p_utils.h. -/
structure P2PCtx where
  state : P2PState
  role : P2PRole
  peer_mac : Mac
  own_mac : Mac
  peer_count : Nat
  go_intent : Nat
  frequency : Nat
  group_formed : Bool
  connected : Bool
deriving DecidableEq, Repr

/-- Context contents after `wifi_p2p_init`: `memset(&p2p_ctx, 0, ...)` then
`state = IDLE`, `role = UNDETERMINED`. -/
def p2pInitCtx : P2PCtx :=
  { state := .idle
    role := .undetermined
    peer_mac := zeroMac
    own_mac := zeroMac
    peer_count := 0
    go_intent := 0
    frequency := 0
    group_formed := false
    connected := false }

/-- Result of one dispatcher handler: the updated context, the semaphores
given (`k_sem_give`, in program order) and the user notifications emitted
(`notify_user_event`, in program order). -/
structure DispatchOut where
  ctx : P2PCtx
  gives : List P2PGate
  events : List P2PEvent
deriving DecidableEq, Repr

/-- handle_p2p_device_found (wifi_p2p_utils.c).  A NULL `cb->info` is the
`none` case and returns without any effect. -/
def handle_p2p_device_found (ctx : P2PCtx) (info : Option DeviceInfo) : DispatchOut :=
  match info with
  | none => ⟨ctx, [], []⟩
  | some peer =>
    let ctx := { ctx with
      peer_mac := peer.mac
      peer_count := ctx.peer_count + 1
      state := .found }
    ⟨ctx, [.findSem], [.deviceFound]⟩

/-- handle_p2p_connect_result (wifi_p2p_utils.c).  `status` is the
`wifi_status.status` value carried by the notification; 0 means success. -/
def handle_p2p_connect_result (ctx : P2PCtx) (status : Int) : DispatchOut :=
  if status = 0 then
    let roleEvents : P2PRole × List P2PEvent :=
      if ctx.role ≠ .go then (.cli, [.connected]) else (ctx.role, [.peerJoined])
    let ctx := { ctx with
      role := roleEvents.1
      state := .connected
      connected := true
      group_formed := true }
    ⟨ctx, [.connectSem, .groupFormedSem], roleEvents.2⟩
  else
    if ctx.state = .connecting then
      ⟨ctx, [], []⟩
    else
      ⟨{ ctx with state := .error }, [.connectSem, .groupFormedSem], [.connectFailed]⟩

/-- handle_ap_enable_result (wifi_p2p_utils.c).  The interface bring-up calls
(`net_if_up`, `net_if_carrier_on`, `net_if_dormant_off`) act on the external
network interface, not on the session context, and are not modelled. -/
def handle_ap_enable_result (ctx : P2PCtx) (status : Int) : DispatchOut :=
  if status = 0 then
    let ctx := { ctx with
      role := .go
      group_formed := true
      state := .groupFormed
      connected := true }
    ⟨ctx, [.groupFormedSem], [.groupStarted]⟩
  else
    ⟨{ ctx with state := .error }, [.groupFormedSem], [.connectFailed]⟩

/-- handle_ap_sta_connected (wifi_p2p_utils.c). -/
def handle_ap_sta_connected (ctx : P2PCtx) (mac : Mac) : DispatchOut :=
  let ctx := { ctx with connected := true, peer_mac := mac }
  ⟨ctx, [.apStaConnectedSem], [.peerJoined, .apStaConnected]⟩

/-- handle_ap_sta_disconnected (wifi_p2p_utils.c): acts only when the
disconnecting MAC equals the tracked peer MAC (`memcmp == 0`). -/
def handle_ap_sta_disconnected (ctx : P2PCtx) (mac : Mac) : DispatchOut :=
  if ctx.peer_mac = mac then
    ⟨{ ctx with connected := false, peer_mac := zeroMac }, [], [.peerLeft]⟩
  else
    ⟨ctx, [], []⟩

/-- One asynchronous notification from the radio subsystem, as dispatched by
p2p_mgmt_event_handler (wifi_p2p_utils.c). -/
inductive DispatchEv
  | deviceFound (info : Option DeviceInfo)
  | connectResult (status : Int)
  | apEnableResult (status : Int)
  | apStaConnected (mac : Mac)
  | apStaDisconnected (mac : Mac)
deriving DecidableEq, Repr

/-- p2p_mgmt_event_handler (wifi_p2p_utils.c): dispatch on the event kind. -/
def p2p_mgmt_event_handler (ctx : P2PCtx) (ev : DispatchEv) : DispatchOut :=
  match ev with
  | .deviceFound info => handle_p2p_device_found ctx info
  | .connectResult status => handle_p2p_connect_result ctx status
  | .apEnableResult status => handle_ap_enable_result ctx status
  | .apStaConnected mac => handle_ap_sta_connected ctx mac
  | .apStaDisconnected mac => handle_ap_sta_disconnected ctx mac

/-- Fold a sequence of dispatcher notifications over the context (used to
model notifications delivered while the orchestrator sleeps or waits). -/
def applyDispatchEvents (ctx : P2PCtx) (evs : List DispatchEv) : P2PCtx :=
  evs.foldl (fun c e => (p2p_mgmt_event_handler c e).ctx) ctx

/-! ## Orchestrator operations from wifi_p2p_utils.c

Each operation takes the current context plus the outcome of its external
interactions: `ifaceOk` models `net_if_get_first_wifi() != NULL` and
`mgmtRet` the return value of the `net_mgmt(NET_REQUEST_WIFI_P2P_OPER, ...)`
call (0 = success).  The pair returned is (new context, return value). -/

/-- wifi_p2p_find: sets FINDING and clears `peer_count` before issuing the
request; a failed request leaves the context in ERROR. -/
def wifi_p2p_find (ctx : P2PCtx) (ifaceOk : Bool) (mgmtRet : Int)
    (_timeout_sec : Nat) : P2PCtx × Int :=
  if ¬ifaceOk then (ctx, -ENODEV)
  else
    let ctx := { ctx with state := .finding, peer_count := 0 }
    if mgmtRet ≠ 0 then ({ ctx with state := .error }, mgmtRet)
    else (ctx, 0)

/-- wifi_p2p_stop_find: a failed request changes nothing; success sets IDLE. -/
def wifi_p2p_stop_find (ctx : P2PCtx) (ifaceOk : Bool) (mgmtRet : Int) :
    P2PCtx × Int :=
  if ¬ifaceOk then (ctx, -ENODEV)
  else if mgmtRet ≠ 0 then (ctx, mgmtRet)
  else ({ ctx with state := .idle }, 0)

/-- wifi_p2p_connect: records `go_intent`/`frequency`, enters CONNECTING,
issues the request (failure leaves ERROR), then pre-assigns the role from a
decisive GO intent (15 means GO, 0 means Client, anything else keeps the
role undetermined until negotiation).  A NULL `peer_mac` (the `none` case)
is rejected with -EINVAL before any context change. -/
def wifi_p2p_connect (ctx : P2PCtx) (ifaceOk : Bool) (mgmtRet : Int)
    (peer_mac : Option Mac) (go_intent : Nat) (freq : Nat) : P2PCtx × Int :=
  if ¬ifaceOk then (ctx, -ENODEV)
  else
    match peer_mac with
    | none => (ctx, -EINVAL)
    | some _ =>
      let ctx := { ctx with go_intent := go_intent, frequency := freq,
                            state := .connecting }
      if mgmtRet ≠ 0 then ({ ctx with state := .error }, mgmtRet)
      else
        let ctx :=
          if go_intent = 15 then { ctx with role := .go }
          else if go_intent = 0 then { ctx with role := .cli }
          else ctx
        (ctx, 0)

/-- wifi_p2p_group_add: on success the device records the GO role and the
operating frequency (state is left unchanged). -/
def wifi_p2p_group_add (ctx : P2PCtx) (ifaceOk : Bool) (mgmtRet : Int)
    (freq : Nat) : P2PCtx × Int :=
  if ¬ifaceOk then (ctx, -ENODEV)
  else if mgmtRet ≠ 0 then (ctx, mgmtRet)
  else ({ ctx with role := .go, frequency := freq }, 0)

/-- wifi_p2p_group_remove: on success clears the group/connected flags and
returns to IDLE (role is left unchanged). -/
def wifi_p2p_group_remove (ctx : P2PCtx) (ifaceOk : Bool) (mgmtRet : Int) :
    P2PCtx × Int :=
  if ¬ifaceOk then (ctx, -ENODEV)
  else if mgmtRet ≠ 0 then (ctx, mgmtRet)
  else ({ ctx with group_formed := false, connected := false,
                   state := .idle }, 0)

/-! ## Context transition system (for the reachability invariant claims)

An operation is either one of the orchestrator calls above (with its oracle
data inlined) or the delivery of one dispatcher notification. -/

inductive P2POp
  | opInit
  | opFind (timeout_sec : Nat) (ifaceOk : Bool) (mgmtRet : Int)
  | opStopFind (ifaceOk : Bool) (mgmtRet : Int)
  | opConnect (peer_mac : Option Mac) (go_intent : Nat) (freq : Nat)
      (ifaceOk : Bool) (mgmtRet : Int)
  | opGroupAdd (freq : Nat) (ifaceOk : Bool) (mgmtRet : Int)
  | opGroupRemove (ifaceOk : Bool) (mgmtRet : Int)
  | opEvent (ev : DispatchEv)
deriving DecidableEq, Repr

/-- Effect of one operation on the session context. -/
def stepP2POp (ctx : P2PCtx) (op : P2POp) : P2PCtx :=
  match op with
  | .opInit => p2pInitCtx
  | .opFind t i m => (wifi_p2p_find ctx i m t).1
  | .opStopFind i m => (wifi_p2p_stop_find ctx i m).1
  | .opConnect pm gi f i m => (wifi_p2p_connect ctx i m pm gi f).1
  | .opGroupAdd f i m => (wifi_p2p_group_add ctx i m f).1
  | .opGroupRemove i m => (wifi_p2p_group_remove ctx i m).1
  | .opEvent ev => (p2p_mgmt_event_handler ctx ev).ctx

/-- Run a sequence of operations from a context. -/
def runP2POps (ctx : P2PCtx) (ops : List P2POp) : P2PCtx :=
  ops.foldl stepP2POp ctx

/-- The operations whose source code can assign a role other than
UNDETERMINED: a successful connect call with a decisive GO intent, a
successful group-add, a successful connect-result notification, and a
successful AP-enable-result notification. -/
def roleSettingOp (op : P2POp) : Bool :=
  match op with
  | .opConnect pm gi _ i m => i && m == 0 && pm.isSome && (gi == 15 || gi == 0)
  | .opGroupAdd _ i m => i && m == 0
  | .opEvent (.connectResult s) => s == 0
  | .opEvent (.apEnableResult s) => s == 0
  | _ => false

/-! ## Peer lookup and selection (wifi_p2p_utils.c, main.c) -/

/-- Value of a hexadecimal digit character. -/
def hexDigitVal (c : Char) : Option Nat :=
  if '0' ≤ c ∧ c ≤ '9' then some (c.toNat - '0'.toNat)
  else if 'a' ≤ c ∧ c ≤ 'f' then some (c.toNat - 'a'.toNat + 10)
  else if 'A' ≤ c ∧ c ≤ 'F' then some (c.toNat - 'A'.toNat + 10)
  else none

/-- Split a character list at each colon (the `:` literals of the sscanf
pattern). -/
def splitOnColon : List Char → List (List Char)
  | [] => [[]]
  | c :: rest =>
    match splitOnColon rest with
    | [] => [[c]]
    | g :: gs => if c = ':' then [] :: g :: gs else (c :: g) :: gs

/-- Parse one `%x` component: a non-empty run of hex digits. -/
def parseHexComponent (cs : List Char) : Option Nat :=
  if cs.isEmpty then none
  else
    cs.foldl
      (fun acc c =>
        match acc, hexDigitVal c with
        | some v, some d => some (v * 16 + d)
        | _, _ => none)
      (some 0)

/-- parse_mac_address (wifi_p2p_utils.c): `sscanf(mac_str, "%x:%x:%x:%x:%x:%x")`
followed by a `(uint8_t)` cast of each component.  Modelled for the
colon-separated hex format the sscanf pattern describes: the string must
contain at least six colon-separated components and the first six must be
hexadecimal; each parsed value is truncated to a byte. -/
def parse_mac_address (mac_str : String) : Option Mac :=
  let comps := splitOnColon mac_str.data
  if comps.length < 6 then none
  else
    let parsed := (comps.take 6).map parseHexComponent
    if parsed.all Option.isSome then
      some (parsed.map (fun o => o.getD 0 % 256))
    else none

/-- wifi_p2p_find_peer_by_mac (wifi_p2p_utils.c).  `peers = none` models a
NULL array and `mac_filter = none` a NULL filter string; `peer_count` is the
element count the caller passes alongside the array. -/
def wifi_p2p_find_peer_by_mac (peers : Option (List DeviceInfo))
    (peer_count : Nat) (mac_filter : Option String) : Option DeviceInfo :=
  match peers, mac_filter with
  | some ps, some f =>
    if peer_count = 0 then none
    else if f = "" then ps.head?
    else
      match parse_mac_address f with
      | none => none
      | some fm => (ps.take peer_count).find? (fun p => p.mac = fm)
  | _, _ => none

/-- INT_MIN for the 32-bit `int best_rssi` of p2p_connect_handler. -/
def intMin32 : Int := -2147483648

/-- The highest-RSSI scan loop of p2p_connect_handler (main.c): walks the
peer list keeping the index of the best RSSI seen so far; a strictly greater
RSSI is required to displace the current best, so the earliest-seen peer
wins ties.  `none` models the `best_idx = -1` sentinel. -/
def best_rssi_loop (ps : List DeviceInfo) (i : Nat) (best_idx : Option Nat)
    (best_rssi : Int) : Option Nat :=
  match ps with
  | [] => best_idx
  | p :: rest =>
    if p.rssi > best_rssi then best_rssi_loop rest (i + 1) (some i) p.rssi
    else best_rssi_loop rest (i + 1) best_idx best_rssi

/-- Auto-selection entry point: the loop above started the way
p2p_connect_handler starts it (`best_idx = -1`, `best_rssi = INT_MIN`). -/
def select_highest_rssi (ps : List DeviceInfo) : Option Nat :=
  best_rssi_loop ps 0 none intMin32

/-! ## Pairing orchestrator (main.c)

The Kconfig values that parameterize main.c are gathered in `AppConfig`.
`SysState` holds the `static` variables of main.c that the pairing work
handlers touch, together with the shared session context. -/

structure AppConfig where
  discovery_timeout : Nat
  go_intent : Nat
  operating_frequency : Nat
  target_peer_mac : String
deriving DecidableEq, Repr

structure SysState where
  ctx : P2PCtx
  p2p_pairing_in_progress : Bool
  discovered_peers : List DeviceInfo
  discovered_peer_count : Nat
  dhcp_bound_handled : Bool
deriving DecidableEq, Repr

/-- Oracle data consumed by one run of p2p_start_handler: the outcome of the
`wifi_p2p_find` call, the dispatcher notifications delivered during the
discovery-window sleep, and the result of `wifi_p2p_get_peers` (`none`
models a failed query, which is only logged). -/
structure StartOracle where
  findIfaceOk : Bool
  findMgmtRet : Int
  eventsDuringWait : List DispatchEv
  getPeersRet : Option (List DeviceInfo)
deriving Repr

/-- Oracle data consumed by one run of p2p_connect_handler. -/
structure ConnectOracle where
  stopFindIfaceOk : Bool
  stopFindMgmtRet : Int
  eventsDuringStopDelay : List DispatchEv
  eventsDuringNegWait : List DispatchEv
  connectIfaceOk : Bool
  connectMgmtRet : Int
  eventsDuringGroupWait : List DispatchEv
  groupSemTimedOut : Bool
  eventsDuringRoleSteps : List DispatchEv
deriving Repr

/-- p2p_start_handler (main.c).  Returns the new system state and whether
`p2p_connect_work` was submitted (in which case the in-flight flag is
deliberately left set and handed to the connect sequence).  LED control and
logging are external side effects and are not modelled. -/
def p2p_start_handler (cfg : AppConfig) (s : SysState) (o : StartOracle) :
    SysState × Bool :=
  if s.p2p_pairing_in_progress then (s, false)
  else
    let s := { s with p2p_pairing_in_progress := true,
                      discovered_peer_count := 0 }
    let findRes := wifi_p2p_find s.ctx o.findIfaceOk o.findMgmtRet
      cfg.discovery_timeout
    let s := { s with ctx := findRes.1 }
    if findRes.2 < 0 then
      ({ s with p2p_pairing_in_progress := false }, false)
    else
      let s := { s with ctx := applyDispatchEvents s.ctx o.eventsDuringWait }
      let s :=
        match o.getPeersRet with
        | none => s
        | some l => { s with discovered_peers := l,
                             discovered_peer_count := l.length }
      if s.discovered_peer_count > 0 ∨ s.ctx.state = .found then (s, true)
      else ({ s with p2p_pairing_in_progress := false }, false)

/-- Target-peer choice in p2p_connect_handler (main.c): the MAC-filter path
when `CONFIG_P2P_TARGET_PEER_MAC` is non-empty, otherwise the inline
highest-RSSI loop over `discovered_peers[0 .. discovered_peer_count-1]`. -/
def connect_target_peer (cfg : AppConfig) (peers : List DeviceInfo)
    (count : Nat) : Option DeviceInfo :=
  if cfg.target_peer_mac = "" then
    match select_highest_rssi (peers.take count) with
    | some i => (peers.take count).get? i
    | none => none
  else
    wifi_p2p_find_peer_by_mac (some peers) count (some cfg.target_peer_mac)

/-- p2p_connect_handler (main.c).  Returns the new system state and whether
the `wifi_p2p_connect` call was issued.  Sleeps only let dispatcher
notifications run (the oracle's event lists); `setup_go_network` and the
DHCP/echo start calls act on external collaborators and are not part of the
state modelled here. -/
def p2p_connect_handler (cfg : AppConfig) (s : SysState) (o : ConnectOracle) :
    SysState × Bool :=
  if s.discovered_peer_count = 0 then
    ({ s with p2p_pairing_in_progress := false }, false)
  else
    let stopRes := wifi_p2p_stop_find s.ctx o.stopFindIfaceOk o.stopFindMgmtRet
    let ctx := applyDispatchEvents stopRes.1 o.eventsDuringStopDelay
    let s := { s with ctx := ctx }
    match connect_target_peer cfg s.discovered_peers s.discovered_peer_count with
    | none => ({ s with p2p_pairing_in_progress := false }, false)
    | some target =>
      let ctx :=
        if cfg.go_intent = 0 then applyDispatchEvents s.ctx o.eventsDuringNegWait
        else s.ctx
      let conRes := wifi_p2p_connect ctx o.connectIfaceOk o.connectMgmtRet
        (some target.mac) cfg.go_intent cfg.operating_frequency
      let s := { s with ctx := conRes.1 }
      if conRes.2 < 0 then
        ({ s with p2p_pairing_in_progress := false }, true)
      else
        let ctx := applyDispatchEvents s.ctx o.eventsDuringGroupWait
        let s := { s with ctx := ctx }
        let gfRet : Int :=
          if o.groupSemTimedOut then -ETIMEDOUT
          else if ctx.state = .error then -eioCode
          else 0
        if gfRet < 0 then
          ({ s with p2p_pairing_in_progress := false }, true)
        else
          let s :=
            match ctx.role with
            | .go =>
              { s with ctx := applyDispatchEvents s.ctx o.eventsDuringRoleSteps }
            | .cli =>
              { s with ctx := applyDispatchEvents s.ctx o.eventsDuringRoleSteps,
                       dhcp_bound_handled := false }
            | .undetermined => s
          ({ s with p2p_pairing_in_progress := false }, true)

/-! ## Echo diagnostic engine (udp_utils.c) -/

/-- `#define UDP_RECV_TIMEOUT_MS 2000` (udp_utils.c): receive timeout set on
the client socket via SO_RCVTIMEO in udp_client_init. -/
def UDP_RECV_TIMEOUT_MS : Nat := 2000

/-- struct udp_echo_stats (udp_utils.h). -/
structure UdpEchoStats where
  packets_sent : Nat
  packets_received : Nat
  bytes_sent : Nat
  bytes_received : Nat
  packets_lost : Nat
  rtt_min_us : Nat
  rtt_max_us : Nat
  rtt_avg_us : Nat
  rtt_total_us : Nat
deriving DecidableEq, Repr

/-- UINT32_MAX, the reset value of `rtt_min_us`. -/
def UINT32_MAX : Nat := 4294967295

/-- udp_echo_reset_stats (udp_utils.c): zero everything, seed `rtt_min_us`
with UINT32_MAX. -/
def udp_echo_reset_stats : UdpEchoStats :=
  { packets_sent := 0
    packets_received := 0
    bytes_sent := 0
    bytes_received := 0
    packets_lost := 0
    rtt_min_us := UINT32_MAX
    rtt_max_us := 0
    rtt_avg_us := 0
    rtt_total_us := 0 }

/-- Statistics update of one udp_echo_client_run iteration (udp_utils.c,
body of the while loop after `udp_echo_ping` returns).  `ret` is the ping
return value: positive = bytes of the echo reply, `-ETIMEDOUT` = reply
timeout, any other value = error (logged, nothing counted).  `rtt_us` is the
measured round-trip time, meaningful only on success. -/
def udp_echo_client_step (st : UdpEchoStats) (packet_size : Nat) (ret : Int)
    (rtt_us : Nat) : UdpEchoStats :=
  if ret > 0 then
    let st := { st with
      packets_sent := st.packets_sent + 1
      packets_received := st.packets_received + 1
      bytes_sent := st.bytes_sent + packet_size
      bytes_received := st.bytes_received + ret.toNat }
    let st :=
      if st.packets_received = 1 ∨ rtt_us < st.rtt_min_us then
        { st with rtt_min_us := rtt_us }
      else st
    let st :=
      if rtt_us > st.rtt_max_us then { st with rtt_max_us := rtt_us } else st
    let st := { st with rtt_total_us := st.rtt_total_us + rtt_us }
    { st with rtt_avg_us := st.rtt_total_us / st.packets_received }
  else if ret = -ETIMEDOUT then
    { st with
      packets_sent := st.packets_sent + 1
      packets_lost := st.packets_lost + 1
      bytes_sent := st.bytes_sent + packet_size }
  else st

/-- How a run of one of the echo loops ended. -/
inductive EchoOutcome
  | stopped
  | completed
  | outOfEvents
deriving DecidableEq, Repr

/-- One client-loop iteration of oracle data: the stop-flag value read at the
loop head, the `udp_echo_ping` return value and the measured RTT. -/
structure ClientEv where
  stop : Bool
  pingRet : Int
  rtt_us : Nat
deriving DecidableEq, Repr

/-- The while loop of udp_echo_client_run (udp_utils.c): check the stop
flag, check the count limit (`count > 0 && seq_num >= count` breaks), run
one ping, update statistics, advance the sequence number.  The event list
supplies one entry per loop-head evaluation; exhausting it models an
unfinished (still running) loop. -/
def udp_echo_client_loop (packet_size count : Nat) :
    UdpEchoStats → Nat → List ClientEv → EchoOutcome × UdpEchoStats
  | st, _, [] => (.outOfEvents, st)
  | st, seq_num, e :: rest =>
    if e.stop then (.stopped, st)
    else if count > 0 ∧ seq_num ≥ count then (.completed, st)
    else
      udp_echo_client_loop packet_size count
        (udp_echo_client_step st packet_size e.pingRet e.rtt_us)
        (seq_num + 1) rest

/-- udp_echo_client_run (udp_utils.c): clamp the packet size to the send
buffer (`CONFIG_UDP_ECHO_PACKET_SIZE + 64` bytes, passed in as `buf_size`),
then run the loop from sequence number 0. -/
def udp_echo_client_run (buf_size packet_size count : Nat)
    (stats : UdpEchoStats) (events : List ClientEv) :
    EchoOutcome × UdpEchoStats :=
  let packet_size := if packet_size > buf_size then buf_size else packet_size
  udp_echo_client_loop packet_size count stats 0 events

/-- udp_echo_print_stats (udp_utils.c), loss-percentage part: printed only
when `packets_sent > 0`; `none` means the division never happens. -/
def udp_echo_loss_pct (st : UdpEchoStats) : Option Nat :=
  if st.packets_sent > 0 then some (st.packets_lost * 100 / st.packets_sent)
  else none

/-! ## Echo server loop (udp_utils.c) -/

/-- A datagram sender address (struct sockaddr_in, abstracted to the fields
the echo logic uses for identity). -/
structure SockAddrIn where
  addr : Nat
  port : Nat
deriving DecidableEq, Repr

/-- Outcome of one `zsock_recvfrom` call in the server loop: a timeout
(`EAGAIN`/`EWOULDBLOCK`), another receive error, or data from a sender
(`payload` of length `recv_len`; an empty payload models `recv_len == 0`). -/
inductive ServerRecv
  | timeoutAgain
  | errOther (e : Int)
  | dataRecv (payload : List Nat) (sender : SockAddrIn)
deriving DecidableEq, Repr

/-- One server-loop iteration of oracle data: the stop-flag value read at
the loop head, the receive outcome, and the `zsock_sendto` return value
(consulted only when data was received and echoed). -/
structure ServerEv where
  stop : Bool
  recv : ServerRecv
  sendRet : Int
deriving DecidableEq, Repr

/-- An echo transmission attempted by the server: the exact received payload
directed at the sender address. -/
structure SendAttempt where
  payload : List Nat
  dest : SockAddrIn
deriving DecidableEq, Repr

/-- Body of one udp_echo_server_run iteration (udp_utils.c) after the stop
flag was found clear: timeouts and receive errors change nothing; received
data bumps the receive counters and is echoed back verbatim to the sender;
a failed echo send leaves the send counters alone. -/
def udp_echo_server_step (st : UdpEchoStats) (recv : ServerRecv)
    (sendRet : Int) : UdpEchoStats × Option SendAttempt :=
  match recv with
  | .timeoutAgain => (st, none)
  | .errOther _ => (st, none)
  | .dataRecv payload sender =>
    if payload.length = 0 then (st, none)
    else
      let st := { st with
        packets_received := st.packets_received + 1
        bytes_received := st.bytes_received + payload.length }
      if sendRet < 0 then (st, some ⟨payload, sender⟩)
      else
        ({ st with
            packets_sent := st.packets_sent + 1
            bytes_sent := st.bytes_sent + sendRet.toNat },
          some ⟨payload, sender⟩)

/-- The while loop of udp_echo_server_run (udp_utils.c).  Also returns the
trace of echo transmissions attempted.  The loop exits (returning 0) only
when a loop-head read of the stop flag yields true; running out of oracle
events models a loop that is still going. -/
def udp_echo_server_run (st : UdpEchoStats) :
    List ServerEv → EchoOutcome × UdpEchoStats × List SendAttempt
  | [] => (.outOfEvents, st, [])
  | e :: rest =>
    if e.stop then (.stopped, st, [])
    else
      let stepRes := udp_echo_server_step st e.recv e.sendRet
      let tail := udp_echo_server_run stepRes.1 rest
      (tail.1, tail.2.1, stepRes.2.toList ++ tail.2.2)

/-! ## Echo session teardown (main.c) -/

/-- The observable steps of stop_udp_echo (main.c), in program order. -/
inductive StopEchoAction
  | setStopFlag
  | sleepMs (n : Nat)
  | closeSocket
  | printStats
deriving DecidableEq, Repr

/-- stop_udp_echo (main.c): set the stop flag, `k_sleep(K_MSEC(500))`, close
the socket (`udp_client_cleanup`), print the final statistics. -/
def stop_udp_echo : List StopEchoAction :=
  [.setStopFlag, .sleepMs 500, .closeSocket, .printStats]

/-- Milliseconds slept before the first `closeSocket` of an action list:
the grace period stop_udp_echo grants the echo loops. -/
def sleep_before_close : List StopEchoAction → Nat
  | [] => 0
  | .closeSocket :: _ => 0
  | .sleepMs n :: rest => n + sleep_before_close rest
  | _ :: rest => sleep_before_close rest

/-- Whether the stop flag is set strictly before the socket is closed. -/
def flag_set_before_close : List StopEchoAction → Bool
  | [] => false
  | .closeSocket :: _ => false
  | .setStopFlag :: rest => rest.contains .closeSocket
  | _ :: rest => flag_set_before_close rest

/-! ## Claim theorems -/

/-- C1: a connect-result notification with a failure status delivered in
state Connecting changes no context field, gives no semaphore and emits no
user notification; delivered in any other state it sets state to Error,
emits ConnectFailed and gives both the connected and the group-formed
semaphores. -/
theorem c1_connect_failure_dispatch (ctx : P2PCtx) (status : Int)
    (hfail : status ≠ 0) :
    (ctx.state = .connecting →
      handle_p2p_connect_result ctx status = ⟨ctx, [], []⟩) ∧
    (ctx.state ≠ .connecting →
      handle_p2p_connect_result ctx status =
        ⟨{ ctx with state := .error }, [.connectSem, .groupFormedSem],
          [.connectFailed]⟩) := by
  unfold handle_p2p_connect_result
  refine ⟨fun h => ?_, fun h => ?_⟩ <;> simp [hfail, h]

/-- Witness for C1 at a failure status of 1, in state Connecting and in
state Idle. -/
theorem c1_connect_failure_dispatch_witness :
    handle_p2p_connect_result { p2pInitCtx with state := .connecting } 1 =
      ⟨{ p2pInitCtx with state := .connecting }, [], []⟩ ∧
    handle_p2p_connect_result p2pInitCtx 1 =
      ⟨{ p2pInitCtx with state := .error }, [.connectSem, .groupFormedSem],
        [.connectFailed]⟩ :=
  ⟨(c1_connect_failure_dispatch _ 1 (by decide)).1 rfl,
   (c1_connect_failure_dispatch p2pInitCtx 1 (by decide)).2 (by decide)⟩

/-- C9: a station-disconnected notification for the tracked peer MAC clears
the connected flag, zeroes the peer MAC and emits PeerLeft; for any other
MAC it changes nothing and emits nothing. -/
theorem c9_sta_disconnected_dispatch (ctx : P2PCtx) (mac : Mac) :
    (ctx.peer_mac = mac →
      handle_ap_sta_disconnected ctx mac =
        ⟨{ ctx with connected := false, peer_mac := zeroMac }, [],
          [.peerLeft]⟩) ∧
    (ctx.peer_mac ≠ mac →
      handle_ap_sta_disconnected ctx mac = ⟨ctx, [], []⟩) := by
  unfold handle_ap_sta_disconnected
  refine ⟨fun h => ?_, fun h => ?_⟩ <;> simp [h]

/-- Witness for C9 at a matching and at a non-matching MAC. -/
theorem c9_sta_disconnected_dispatch_witness :
    handle_ap_sta_disconnected
        { p2pInitCtx with peer_mac := [1, 2, 3, 4, 5, 6] } [1, 2, 3, 4, 5, 6] =
      ⟨p2pInitCtx, [], [.peerLeft]⟩ ∧
    handle_ap_sta_disconnected p2pInitCtx [1, 2, 3, 4, 5, 6] =
      ⟨p2pInitCtx, [], []⟩ :=
  ⟨(c9_sta_disconnected_dispatch _ _).1 rfl,
   (c9_sta_disconnected_dispatch p2pInitCtx _).2 (by decide)⟩

/-- C10: find-peer-by-MAC returns the first array element for a non-empty
array with positive count and an empty filter, and returns nothing for a
NULL array, a zero count or a NULL filter. -/
theorem c10_find_peer_edge_cases :
    (∀ (p : DeviceInfo) (ps : List DeviceInfo) (n : Nat), n ≠ 0 →
      wifi_p2p_find_peer_by_mac (some (p :: ps)) n (some "") = some p) ∧
    (∀ (n : Nat) (mf : Option String),
      wifi_p2p_find_peer_by_mac none n mf = none) ∧
    (∀ (ps : List DeviceInfo) (mf : String),
      wifi_p2p_find_peer_by_mac (some ps) 0 (some mf) = none) ∧
    (∀ (ps : List DeviceInfo) (n : Nat),
      wifi_p2p_find_peer_by_mac (some ps) n none = none) := by
  refine ⟨fun p ps n hn => ?_, fun n mf => ?_, fun ps mf => ?_, fun ps n => ?_⟩
  · simp [wifi_p2p_find_peer_by_mac, hn]
  · cases mf <;> rfl
  · simp [wifi_p2p_find_peer_by_mac]
  · rfl

/-- Witness for C10 at concrete inputs. -/
theorem c10_find_peer_edge_cases_witness :
    wifi_p2p_find_peer_by_mac
        (some [⟨[1, 2, 3, 4, 5, 6], "peerA", -70⟩]) 1 (some "") =
      some ⟨[1, 2, 3, 4, 5, 6], "peerA", -70⟩ :=
  c10_find_peer_edge_cases.1 _ [] 1 (by decide)

/-- C3 (code bug): stop_udp_echo does set the stop flag before closing the
socket, but the grace period it sleeps is 500 ms, which is strictly smaller
than the 2000 ms receive timeout of the echo loop (UDP_RECV_TIMEOUT_MS), so
the "grace period ≥ receive timeout" requirement fails and a loop blocked in
a receive can still be using the socket when it is closed. -/
theorem c3_stop_grace_below_recv_timeout :
    flag_set_before_close stop_udp_echo = true ∧
    sleep_before_close stop_udp_echo = 500 ∧
    UDP_RECV_TIMEOUT_MS = 2000 ∧
    sleep_before_close stop_udp_echo < UDP_RECV_TIMEOUT_MS := by
  decide

/-- C4: the statistics aggregator on RTT samples 10000, 5000, 20000 μs
followed by two timeouts, and the division-guarded loss percentage. -/
theorem c4_stats_round_trip :
    (let s1 := udp_echo_client_step udp_echo_reset_stats 64 64 10000
     let s2 := udp_echo_client_step s1 64 64 5000
     let s3 := udp_echo_client_step s2 64 64 20000
     let s4 := udp_echo_client_step s3 64 (-ETIMEDOUT) 0
     let s5 := udp_echo_client_step s4 64 (-ETIMEDOUT) 0
     s3.rtt_min_us = 5000 ∧ s3.rtt_max_us = 20000 ∧ s3.rtt_avg_us = 11666 ∧
     s3.packets_received = 3 ∧ s3.packets_lost = 0 ∧
     s5.packets_sent = 5 ∧ s5.packets_lost = 2 ∧
     udp_echo_loss_pct s5 = some 40) ∧
    (∀ st : UdpEchoStats, 0 < st.packets_sent →
      udp_echo_loss_pct st = some (st.packets_lost * 100 / st.packets_sent)) ∧
    (∀ st : UdpEchoStats, st.packets_sent = 0 → udp_echo_loss_pct st = none) := by
  refine ⟨by decide, fun st h => ?_, fun st h => ?_⟩ <;>
    simp [udp_echo_loss_pct, h]

/-- Witness for C4's guarded-division clauses at concrete statistics. -/
theorem c4_stats_round_trip_witness :
    udp_echo_loss_pct
        { udp_echo_reset_stats with packets_sent := 5, packets_lost := 2 } =
      some 40 ∧
    udp_echo_loss_pct udp_echo_reset_stats = none :=
  ⟨c4_stats_round_trip.2.1 _ (by decide), c4_stats_round_trip.2.2 _ rfl⟩

/-- The role/state invariant claimed for the session context. -/
def roleStateInv (ctx : P2PCtx) : Prop :=
  ctx.role ≠ .undetermined →
    ctx.state = .connected ∨ ctx.state = .groupFormed

instance (ctx : P2PCtx) : Decidable (roleStateInv ctx) := by
  unfold roleStateInv; infer_instance

/-- C2 counterexample: a realistic trace (find, peer found, stop find,
successful connect with GO intent 15) reaches a context with
role = GroupOwner while state = Connecting, violating the claimed
invariant. -/
theorem c2_role_state_counterexample :
    ¬ roleStateInv (runP2POps p2pInitCtx
      [.opFind 30 true 0,
       .opEvent (.deviceFound (some ⟨[2, 0, 0, 0, 0, 1], "peerB", -40⟩)),
       .opStopFind true 0,
       .opConnect (some [2, 0, 0, 0, 0, 1]) 15 2437 true 0]) := by
  decide

/-- One operation that is not role-setting keeps an undetermined role
undetermined. -/
theorem stepP2POp_keeps_undetermined (ctx : P2PCtx) (op : P2POp)
    (hop : roleSettingOp op = false) (hrole : ctx.role = .undetermined) :
    (stepP2POp ctx op).role = .undetermined := by
  cases op with
  | opInit => rfl
  | opFind t i m =>
    show ((wifi_p2p_find ctx i m t).1).role = .undetermined
    cases i with
    | false => simpa [wifi_p2p_find] using hrole
    | true =>
      simp only [wifi_p2p_find]
      split
      · simp_all
      · split <;> simp_all
  | opStopFind i m =>
    show ((wifi_p2p_stop_find ctx i m).1).role = .undetermined
    cases i with
    | false => simpa [wifi_p2p_stop_find] using hrole
    | true =>
      simp only [wifi_p2p_stop_find]
      split
      · simp_all
      · split <;> simp_all
  | opConnect pm gi f i m =>
    show ((wifi_p2p_connect ctx i m pm gi f).1).role = .undetermined
    cases i with
    | false => simpa [wifi_p2p_connect] using hrole
    | true =>
      cases pm with
      | none => simpa [wifi_p2p_connect] using hrole
      | some mac =>
        by_cases hm : m = 0
        · simp only [roleSettingOp, Bool.true_and, Option.isSome_some,
            Bool.and_true, hm] at hop
          have hgi : gi ≠ 15 ∧ gi ≠ 0 := by
            constructor <;> intro hgz <;> simp [hgz] at hop
          simp [wifi_p2p_connect, hm, hgi.1, hgi.2, hrole]
        · simp [wifi_p2p_connect, hm, hrole]
  | opGroupAdd f i m =>
    show ((wifi_p2p_group_add ctx i m f).1).role = .undetermined
    cases i with
    | false => simpa [wifi_p2p_group_add] using hrole
    | true =>
      by_cases hm : m = 0
      · simp [roleSettingOp, hm] at hop
      · simp [wifi_p2p_group_add, hm, hrole]
  | opGroupRemove i m =>
    show ((wifi_p2p_group_remove ctx i m).1).role = .undetermined
    cases i with
    | false => simpa [wifi_p2p_group_remove] using hrole
    | true =>
      simp only [wifi_p2p_group_remove]
      split
      · simp_all
      · split <;> simp_all
  | opEvent ev =>
    cases ev with
    | deviceFound info =>
      show ((handle_p2p_device_found ctx info).ctx).role = .undetermined
      cases info <;> simp [handle_p2p_device_found, hrole]
    | connectResult s =>
      have hs : s ≠ 0 := by simpa [roleSettingOp] using hop
      show ((handle_p2p_connect_result ctx s).ctx).role = .undetermined
      unfold handle_p2p_connect_result
      rw [if_neg hs]
      split <;> simp [hrole]
    | apEnableResult s =>
      have hs : s ≠ 0 := by simpa [roleSettingOp] using hop
      show ((handle_ap_enable_result ctx s).ctx).role = .undetermined
      unfold handle_ap_enable_result
      rw [if_neg hs]
      simp [hrole]
    | apStaConnected mac =>
      show ((handle_ap_sta_connected ctx mac).ctx).role = .undetermined
      simp [handle_ap_sta_connected, hrole]
    | apStaDisconnected mac =>
      show ((handle_ap_sta_disconnected ctx mac).ctx).role = .undetermined
      unfold handle_ap_sta_disconnected
      split <;> simp [hrole]

/-- C2 (amended): starting from the initialized context, the role stays
Undetermined under every sequence of operations that contains none of the
four role-setting ones (successful connect with a decisive GO intent,
successful group-add, successful connect-result, successful
AP-enable-result).  The original state restriction does not hold: a
successful connect with GO intent 15 leaves role = GroupOwner while state is
still Connecting (see the counterexample). -/
theorem c2_role_undetermined_amended (ops : List P2POp)
    (h : ∀ op ∈ ops, roleSettingOp op = false) :
    (runP2POps p2pInitCtx ops).role = .undetermined := by
  suffices hgen : ∀ (l : List P2POp) (ctx : P2PCtx),
      ctx.role = .undetermined → (∀ op ∈ l, roleSettingOp op = false) →
      (runP2POps ctx l).role = .undetermined by
    exact hgen ops p2pInitCtx rfl h
  intro l
  induction l with
  | nil => intro ctx hc _; exact hc
  | cons op rest ih =>
    intro ctx hc hall
    have hstep := stepP2POp_keeps_undetermined ctx op (hall op (by simp)) hc
    have : runP2POps ctx (op :: rest) = runP2POps (stepP2POp ctx op) rest := rfl
    rw [this]
    exact ih _ hstep (fun o ho => hall o (by simp [ho]))

/-- Witness for the amended C2 on a concrete non-role-setting trace. -/
theorem c2_role_undetermined_amended_witness :
    (runP2POps p2pInitCtx
      [.opFind 30 true 0,
       .opEvent (.deviceFound (some ⟨[2, 0, 0, 0, 0, 1], "peerB", -40⟩)),
       .opEvent (.connectResult 1),
       .opStopFind true 0]).role = .undetermined :=
  c2_role_undetermined_amended _ (by decide)

/-- Counter effect of one client-loop statistics update: a successful ping
bumps sent and received, a timeout bumps sent and lost, anything else
changes nothing. -/
theorem udp_echo_client_step_counts (st : UdpEchoStats) (psz : Nat)
    (ret : Int) (rtt : Nat) :
    (ret > 0 →
      (udp_echo_client_step st psz ret rtt).packets_sent = st.packets_sent + 1 ∧
      (udp_echo_client_step st psz ret rtt).packets_received =
        st.packets_received + 1 ∧
      (udp_echo_client_step st psz ret rtt).packets_lost = st.packets_lost) ∧
    (ret = -ETIMEDOUT →
      (udp_echo_client_step st psz ret rtt).packets_sent = st.packets_sent + 1 ∧
      (udp_echo_client_step st psz ret rtt).packets_received =
        st.packets_received ∧
      (udp_echo_client_step st psz ret rtt).packets_lost =
        st.packets_lost + 1) ∧
    (¬ret > 0 → ret ≠ -ETIMEDOUT →
      udp_echo_client_step st psz ret rtt = st) := by
  refine ⟨fun hp => ?_, fun ht => ?_, fun hp ht => ?_⟩
  · simp only [udp_echo_client_step, if_pos hp]
    split <;> split <;> simp
  · have hp : ¬ret > 0 := by rw [ht]; decide
    simp only [udp_echo_client_step]
    rw [if_neg hp, if_pos ht]
    exact ⟨rfl, rfl, rfl⟩
  · simp only [udp_echo_client_step]
    rw [if_neg hp, if_neg ht]

/-- The client loop preserves sent = received + lost. -/
theorem udp_echo_client_loop_sent_split (psz count : Nat) :
    ∀ (evs : List ClientEv) (st : UdpEchoStats) (seq : Nat),
      st.packets_sent = st.packets_received + st.packets_lost →
      ((udp_echo_client_loop psz count st seq evs).2).packets_sent =
        ((udp_echo_client_loop psz count st seq evs).2).packets_received +
          ((udp_echo_client_loop psz count st seq evs).2).packets_lost := by
  intro evs
  induction evs with
  | nil => intro st seq h; simpa [udp_echo_client_loop] using h
  | cons e rest ih =>
    intro st seq h
    by_cases hstop : e.stop = true
    · simpa [udp_echo_client_loop, hstop] using h
    · by_cases hcnt : count > 0 ∧ seq ≥ count
      · simpa [udp_echo_client_loop, hstop, hcnt] using h
      · have hrec :
            udp_echo_client_loop psz count st seq (e :: rest) =
            udp_echo_client_loop psz count
              (udp_echo_client_step st psz e.pingRet e.rtt_us) (seq + 1) rest := by
          simp [udp_echo_client_loop, hstop, hcnt]
        rw [hrec]
        apply ih
        rcases udp_echo_client_step_counts st psz e.pingRet e.rtt_us with
          ⟨hpos, htim, hoth⟩
        by_cases hp : e.pingRet > 0
        · rcases hpos hp with ⟨h1, h2, h3⟩; omega
        · by_cases ht : e.pingRet = -ETIMEDOUT
          · rcases htim ht with ⟨h1, h2, h3⟩; omega
          · rw [hoth hp ht]; exact h

/-- If every iteration ends in a reply or a timeout, the client loop adds
exactly one to received + lost per iteration, so completing a positive
count leaves received + lost = count. -/
theorem udp_echo_client_loop_count_reached (psz count : Nat) :
    ∀ (evs : List ClientEv) (st : UdpEchoStats) (seq : Nat),
      0 < count → seq ≤ count →
      st.packets_received + st.packets_lost = seq →
      (∀ e ∈ evs, e.pingRet > 0 ∨ e.pingRet = -ETIMEDOUT) →
      (udp_echo_client_loop psz count st seq evs).1 = .completed →
      ((udp_echo_client_loop psz count st seq evs).2).packets_received +
        ((udp_echo_client_loop psz count st seq evs).2).packets_lost =
          count := by
  intro evs
  induction evs with
  | nil => intro st seq _ _ _ _ hdone; simp [udp_echo_client_loop] at hdone
  | cons e rest ih =>
    intro st seq hc hseq hsum hok hdone
    by_cases hstop : e.stop = true
    · simp [udp_echo_client_loop, hstop] at hdone
    · by_cases hcnt : count > 0 ∧ seq ≥ count
      · have hseq2 : seq = count := by omega
        simpa [udp_echo_client_loop, hstop, hcnt, hseq2] using hsum
      · have hrec :
            udp_echo_client_loop psz count st seq (e :: rest) =
            udp_echo_client_loop psz count
              (udp_echo_client_step st psz e.pingRet e.rtt_us) (seq + 1) rest := by
          simp [udp_echo_client_loop, hstop, hcnt]
        rw [hrec] at hdone ⊢
        have hseq1 : seq + 1 ≤ count := by omega
        have hsum1 :
            (udp_echo_client_step st psz e.pingRet e.rtt_us).packets_received +
              (udp_echo_client_step st psz e.pingRet e.rtt_us).packets_lost =
            seq + 1 := by
          rcases udp_echo_client_step_counts st psz e.pingRet e.rtt_us with
            ⟨hpos, htim, _⟩
          rcases hok e (by simp) with hp | ht
          · rcases hpos hp with ⟨h1, h2, h3⟩; omega
          · rcases htim ht with ⟨h1, h2, h3⟩; omega
        exact ih _ _ hc hseq1 hsum1 (fun x hx => hok x (by simp [hx])) hdone

/-- C6 counterexample: with a configured count of 1, a run whose single
iteration ends in a ping error (here -EIO, neither a reply nor a timeout)
terminates cleanly by reaching the count, yet counts nothing, so
received + lost = 0 ≠ count. -/
theorem c6_clean_termination_counterexample :
    (udp_echo_client_run 64 64 1 udp_echo_reset_stats
        [⟨false, -eioCode, 0⟩, ⟨false, 64, 1000⟩]).1 = .completed ∧
    ((udp_echo_client_run 64 64 1 udp_echo_reset_stats
        [⟨false, -eioCode, 0⟩, ⟨false, 64, 1000⟩]).2).packets_received +
      ((udp_echo_client_run 64 64 1 udp_echo_reset_stats
          [⟨false, -eioCode, 0⟩, ⟨false, 64, 1000⟩]).2).packets_lost ≠ 1 := by
  decide

/-- C6 (amended): a client run with positive configured count that
terminates cleanly (count reached, not stopped) always satisfies
sent = received + lost; and if additionally every iteration ended in a
reply or a timeout (no other ping error), received + lost equals the
configured count.  The unconditional received + lost = count of the
original claim fails when an iteration ends in another error (see the
counterexample). -/
theorem c6_clean_termination_amended (bufSize psz count : Nat)
    (evs : List ClientEv) (hc : 0 < count)
    (hdone :
      (udp_echo_client_run bufSize psz count udp_echo_reset_stats evs).1 =
        .completed) :
    ((udp_echo_client_run bufSize psz count udp_echo_reset_stats
        evs).2).packets_sent =
      ((udp_echo_client_run bufSize psz count udp_echo_reset_stats
          evs).2).packets_received +
        ((udp_echo_client_run bufSize psz count udp_echo_reset_stats
            evs).2).packets_lost ∧
    ((∀ e ∈ evs, e.pingRet > 0 ∨ e.pingRet = -ETIMEDOUT) →
      ((udp_echo_client_run bufSize psz count udp_echo_reset_stats
          evs).2).packets_received +
        ((udp_echo_client_run bufSize psz count udp_echo_reset_stats
            evs).2).packets_lost = count) := by
  unfold udp_echo_client_run at hdone ⊢
  constructor
  · exact udp_echo_client_loop_sent_split _ count evs udp_echo_reset_stats 0 rfl
  · intro hok
    exact udp_echo_client_loop_count_reached _ count evs udp_echo_reset_stats 0
      hc (by omega) rfl hok hdone

/-- Witness for the amended C6: two replies then a loop-head check complete
a count of 2 with received + lost = sent = 2. -/
theorem c6_clean_termination_amended_witness :
    ((udp_echo_client_run 64 64 2 udp_echo_reset_stats
        [⟨false, 64, 10000⟩, ⟨false, 64, 5000⟩, ⟨false, 64, 0⟩]).2).packets_sent =
      2 ∧
    ((udp_echo_client_run 64 64 2 udp_echo_reset_stats
        [⟨false, 64, 10000⟩, ⟨false, 64, 5000⟩, ⟨false, 64, 0⟩]).2).packets_received +
      ((udp_echo_client_run 64 64 2 udp_echo_reset_stats
          [⟨false, 64, 10000⟩, ⟨false, 64, 5000⟩, ⟨false, 64, 0⟩]).2).packets_lost =
        2 := by
  have h := c6_clean_termination_amended 64 64 2
    [⟨false, 64, 10000⟩, ⟨false, 64, 5000⟩, ⟨false, 64, 0⟩]
    (by decide) (by decide)
  have h2 := h.2 (by decide)
  exact ⟨by rw [h.1, h2], h2⟩

/-- The server loop returns via the stopped path only if some loop-head read
of the stop flag yielded true. -/
theorem udp_echo_server_run_stopped_only :
    ∀ (evs : List ServerEv) (st : UdpEchoStats),
      (udp_echo_server_run st evs).1 = .stopped → ∃ e ∈ evs, e.stop = true := by
  intro evs
  induction evs with
  | nil => intro st h; simp [udp_echo_server_run] at h
  | cons e rest ih =>
    intro st h
    by_cases hstop : e.stop = true
    · exact ⟨e, by simp, hstop⟩
    · rw [udp_echo_server_run, if_neg hstop] at h
      rcases ih _ h with ⟨x, hx, hxs⟩
      exact ⟨x, by simp [hx], hxs⟩

/-- C7: per-iteration behavior of the echo server loop — a receive timeout
leaves the statistics untouched and falls through to the next loop-head
stop-flag check; other receive errors likewise; received data bumps the
receive counters and is echoed back verbatim to the sender, with the send
counters updated only when the send succeeded; and the loop terminates only
when a stop-flag read yields true, never because of a receive or send
failure. -/
theorem c7_server_loop_behavior (st : UdpEchoStats) :
    (∀ ret : Int, udp_echo_server_step st .timeoutAgain ret = (st, none)) ∧
    (∀ (e ret : Int), udp_echo_server_step st (.errOther e) ret = (st, none)) ∧
    (∀ (payload : List Nat) (sender : SockAddrIn) (ret : Int),
      payload ≠ [] → 0 ≤ ret →
      udp_echo_server_step st (.dataRecv payload sender) ret =
        ({ st with
            packets_received := st.packets_received + 1
            bytes_received := st.bytes_received + payload.length
            packets_sent := st.packets_sent + 1
            bytes_sent := st.bytes_sent + ret.toNat },
          some ⟨payload, sender⟩)) ∧
    (∀ (payload : List Nat) (sender : SockAddrIn) (ret : Int),
      payload ≠ [] → ret < 0 →
      udp_echo_server_step st (.dataRecv payload sender) ret =
        ({ st with
            packets_received := st.packets_received + 1
            bytes_received := st.bytes_received + payload.length },
          some ⟨payload, sender⟩)) ∧
    (∀ (e : ServerEv) (rest : List ServerEv), e.stop = false →
      e.recv = .timeoutAgain →
      udp_echo_server_run st (e :: rest) = udp_echo_server_run st rest) ∧
    (∀ evs : List ServerEv,
      (udp_echo_server_run st evs).1 = .stopped → ∃ e ∈ evs, e.stop = true) := by
  refine ⟨fun ret => rfl, fun e ret => rfl,
    fun payload sender ret hne hge => ?_, fun payload sender ret hne hlt => ?_,
    fun e rest hstop hrecv => ?_, fun evs => udp_echo_server_run_stopped_only evs st⟩
  · have hlen : ¬payload.length = 0 := by simpa using hne
    have hns : ¬ret < 0 := by omega
    simp [udp_echo_server_step, hlen, hns]
  · have hlen : ¬payload.length = 0 := by simpa using hne
    simp [udp_echo_server_step, hlen, hlt]
  · rw [udp_echo_server_run, if_neg (by simp [hstop]), hrecv]
    simp [udp_echo_server_step]

/-- Witness for C7 at concrete inputs: a timeout iteration, an echoed
packet with a successful and with a failed send, a continuing run, and a
stopped run. -/
theorem c7_server_loop_behavior_witness :
    udp_echo_server_step udp_echo_reset_stats .timeoutAgain 0 =
      (udp_echo_reset_stats, none) ∧
    udp_echo_server_step udp_echo_reset_stats
        (.dataRecv [7, 8, 9] ⟨101, 5001⟩) 3 =
      ({ udp_echo_reset_stats with
          packets_received := 1
          bytes_received := 3
          packets_sent := 1
          bytes_sent := 3 },
        some ⟨[7, 8, 9], ⟨101, 5001⟩⟩) ∧
    udp_echo_server_step udp_echo_reset_stats
        (.dataRecv [7, 8, 9] ⟨101, 5001⟩) (-eioCode) =
      ({ udp_echo_reset_stats with
          packets_received := 1
          bytes_received := 3 },
        some ⟨[7, 8, 9], ⟨101, 5001⟩⟩) ∧
    udp_echo_server_run udp_echo_reset_stats
        [⟨false, .timeoutAgain, 0⟩, ⟨true, .timeoutAgain, 0⟩] =
      udp_echo_server_run udp_echo_reset_stats [⟨true, .timeoutAgain, 0⟩] ∧
    (∃ e ∈ [(⟨true, .timeoutAgain, 0⟩ : ServerEv)], e.stop = true) := by
  refine ⟨(c7_server_loop_behavior udp_echo_reset_stats).1 0, ?_, ?_, ?_, ?_⟩
  · exact (c7_server_loop_behavior udp_echo_reset_stats).2.2.1 _ _ 3
      (by decide) (by decide)
  · exact (c7_server_loop_behavior udp_echo_reset_stats).2.2.2.1 _ _ (-eioCode)
      (by decide) (by decide)
  · exact (c7_server_loop_behavior udp_echo_reset_stats).2.2.2.2.1 _ _
      rfl rfl
  · exact (c7_server_loop_behavior udp_echo_reset_stats).2.2.2.2.2
      [⟨true, .timeoutAgain, 0⟩] rfl

/-- Every exit path of the connect sequence clears the in-flight flag. -/
theorem p2p_connect_handler_clears_flag (cfg : AppConfig) (s : SysState)
    (o : ConnectOracle) :
    (p2p_connect_handler cfg s o).1.p2p_pairing_in_progress = false := by
  unfold p2p_connect_handler
  by_cases h0 : s.discovered_peer_count = 0
  · rw [if_pos h0]
  · rw [if_neg h0]
    dsimp only
    cases connect_target_peer cfg s.discovered_peers s.discovered_peer_count
    · rfl
    · repeat first | rfl | split

/-- A start-handler run that begins with the flag clear either ends with
the flag clear or hands off to the connect sequence (flag deliberately left
set, work submitted). -/
theorem p2p_start_handler_ends_or_submits (cfg : AppConfig) (s : SysState)
    (o : StartOracle) (h : s.p2p_pairing_in_progress = false) :
    (p2p_start_handler cfg s o).1.p2p_pairing_in_progress = false ∨
    (p2p_start_handler cfg s o).2 = true := by
  unfold p2p_start_handler
  rw [if_neg (by simp [h])]
  dsimp only
  split
  · left; rfl
  · cases o.getPeersRet with
    | none =>
      split
      · right; rfl
      · left; rfl
    | some l =>
      split
      · right; rfl
      · left; rfl

/-- C8: a start trigger that arrives while a pairing attempt is in flight
is rejected with no state change; every exit path of the connect sequence
clears the in-flight flag; and a full attempt (start sequence, then the
connect sequence if it was handed off) never leaves the system in flight. -/
theorem c8_single_pairing_attempt (cfg : AppConfig) (s : SysState)
    (o : StartOracle) (oc : ConnectOracle) :
    (s.p2p_pairing_in_progress = true → p2p_start_handler cfg s o = (s, false)) ∧
    ((p2p_connect_handler cfg s oc).1.p2p_pairing_in_progress = false) ∧
    (s.p2p_pairing_in_progress = false →
      ((p2p_start_handler cfg s o).2 = true →
        (p2p_connect_handler cfg (p2p_start_handler cfg s o).1
            oc).1.p2p_pairing_in_progress = false) ∧
      ((p2p_start_handler cfg s o).2 = false →
        (p2p_start_handler cfg s o).1.p2p_pairing_in_progress = false)) := by
  refine ⟨fun h => ?_, p2p_connect_handler_clears_flag cfg s oc, fun h => ⟨?_, ?_⟩⟩
  · unfold p2p_start_handler
    rw [if_pos h]
  · intro _
    exact p2p_connect_handler_clears_flag cfg _ oc
  · intro h2
    rcases p2p_start_handler_ends_or_submits cfg s o h with hend | hsub
    · exact hend
    · rw [hsub] at h2; cases h2

/-- Sample configuration: auto-select target (empty MAC filter), GO intent
15, 2437 MHz, 30 s discovery. -/
def sampleCfg : AppConfig := ⟨30, 15, 2437, ""⟩

/-- Sample system state with a pairing attempt in flight. -/
def sampleBusy : SysState := ⟨p2pInitCtx, true, [], 0, false⟩

/-- Sample system state with no pairing attempt in flight. -/
def sampleIdle : SysState := ⟨p2pInitCtx, false, [], 0, false⟩

/-- Sample start-handler oracle: find succeeds, no notifications during the
discovery window, peer query succeeds with an empty list. -/
def sampleStartOracle : StartOracle := ⟨true, 0, [], some []⟩

/-- Sample connect-handler oracle: every external call succeeds, no
notifications arrive, no wait times out. -/
def sampleConnectOracle : ConnectOracle := ⟨true, 0, [], [], true, 0, [], false, []⟩

/-- Witness for C8 at concrete states and oracles. -/
theorem c8_single_pairing_attempt_witness :
    p2p_start_handler sampleCfg sampleBusy sampleStartOracle =
      (sampleBusy, false) ∧
    (p2p_connect_handler sampleCfg sampleIdle
        sampleConnectOracle).1.p2p_pairing_in_progress = false ∧
    (p2p_start_handler sampleCfg sampleIdle
        sampleStartOracle).1.p2p_pairing_in_progress = false :=
  ⟨(c8_single_pairing_attempt sampleCfg sampleBusy sampleStartOracle
      sampleConnectOracle).1 rfl,
   (c8_single_pairing_attempt sampleCfg sampleIdle sampleStartOracle
      sampleConnectOracle).2.1,
   ((c8_single_pairing_attempt sampleCfg sampleIdle sampleStartOracle
      sampleConnectOracle).2.2 rfl).2 (by decide)⟩

/-- Default element for indexed access into peer lists. -/
def dfltPeer : DeviceInfo := ⟨zeroMac, "", 0⟩

/-- Invariant of the highest-RSSI scan loop: either no list element beats
the incoming best value and the incoming best index is returned unchanged,
or the loop returns the offset-adjusted position of a maximal-RSSI element
that beats the incoming best, and every earlier element is strictly
smaller (so the earliest-seen peer wins ties). -/
theorem best_rssi_loop_spec (ps : List DeviceInfo) :
    ∀ (i : Nat) (b : Option Nat) (r : Int),
      (best_rssi_loop ps i b r = b ∧
        ∀ j, j < ps.length → (ps.getD j dfltPeer).rssi ≤ r) ∨
      (∃ k, k < ps.length ∧ best_rssi_loop ps i b r = some (i + k) ∧
        r < (ps.getD k dfltPeer).rssi ∧
        (∀ j, j < ps.length →
          (ps.getD j dfltPeer).rssi ≤ (ps.getD k dfltPeer).rssi) ∧
        (∀ j, j < k →
          (ps.getD j dfltPeer).rssi < (ps.getD k dfltPeer).rssi)) := by
  induction ps with
  | nil =>
    intro i b r
    left
    exact ⟨rfl, fun j hj => absurd hj (by simp)⟩
  | cons p rest ih =>
    intro i b r
    by_cases hc : p.rssi > r
    · rcases ih (i + 1) (some i) p.rssi with ⟨heq, hle⟩ |
        ⟨k, hk, heq, hlt, hmax, hties⟩
      · right
        refine ⟨0, by simp, ?_, by simpa using hc, ?_, ?_⟩
        · simp [best_rssi_loop, hc, heq]
        · intro j hj
          cases j with
          | zero => simp
          | succ j' =>
            simp only [List.getD_cons_succ, List.getD_cons_zero]
            exact hle j' (by simpa using hj)
        · intro j hj; omega
      · right
        refine ⟨k + 1, by simpa using hk, ?_, ?_, ?_, ?_⟩
        · simp only [best_rssi_loop, if_pos hc, heq]
          congr 1
          omega
        · simp only [List.getD_cons_succ]
          exact lt_trans hc hlt
        · intro j hj
          cases j with
          | zero =>
            simp only [List.getD_cons_succ, List.getD_cons_zero]
            exact le_of_lt hlt
          | succ j' =>
            simp only [List.getD_cons_succ]
            exact hmax j' (by simpa using hj)
        · intro j hj
          cases j with
          | zero =>
            simp only [List.getD_cons_succ, List.getD_cons_zero]
            exact hlt
          | succ j' =>
            simp only [List.getD_cons_succ]
            exact hties j' (by omega)
    · have hc' : p.rssi ≤ r := not_lt.mp hc
      rcases ih (i + 1) b r with ⟨heq, hle⟩ | ⟨k, hk, heq, hlt, hmax, hties⟩
      · left
        refine ⟨by simp [best_rssi_loop, hc, heq], ?_⟩
        intro j hj
        cases j with
        | zero => simpa using hc'
        | succ j' =>
          simp only [List.getD_cons_succ]
          exact hle j' (by simpa using hj)
      · right
        refine ⟨k + 1, by simpa using hk, ?_, ?_, ?_, ?_⟩
        · simp only [best_rssi_loop, if_neg hc, heq]
          congr 1
          omega
        · simp only [List.getD_cons_succ]
          exact hlt
        · intro j hj
          cases j with
          | zero =>
            simp only [List.getD_cons_succ, List.getD_cons_zero]
            exact le_trans hc' (le_of_lt hlt)
          | succ j' =>
            simp only [List.getD_cons_succ]
            exact hmax j' (by simpa using hj)
        · intro j hj
          cases j with
          | zero =>
            simp only [List.getD_cons_succ, List.getD_cons_zero]
            exact lt_of_le_of_lt hc' hlt
          | succ j' =>
            simp only [List.getD_cons_succ]
            exact hties j' (by omega)

/-- Auto-selection returns the position of a maximal-RSSI peer, earliest
seen among equals; it returns a position whenever the list is non-empty and
every RSSI exceeds the INT_MIN sentinel (true of any dBm value). -/
theorem select_highest_rssi_spec :
    (∀ (ps : List DeviceInfo) (k : Nat), select_highest_rssi ps = some k →
      k < ps.length ∧
      (∀ j, j < ps.length →
        (ps.getD j dfltPeer).rssi ≤ (ps.getD k dfltPeer).rssi) ∧
      (∀ j, j < k →
        (ps.getD j dfltPeer).rssi < (ps.getD k dfltPeer).rssi)) ∧
    (∀ ps : List DeviceInfo, ps ≠ [] → (∀ p ∈ ps, intMin32 < p.rssi) →
      (select_highest_rssi ps).isSome = true) := by
  constructor
  · intro ps k hsel
    rcases best_rssi_loop_spec ps 0 none intMin32 with ⟨heq, _⟩ |
      ⟨k0, hk0, heq, _, hmax, hties⟩
    · rw [select_highest_rssi, heq] at hsel; cases hsel
    · rw [select_highest_rssi, heq] at hsel
      have hkk : k = k0 := by
        have := Option.some.inj hsel
        omega
      subst hkk
      exact ⟨hk0, hmax, hties⟩
  · intro ps hne hbound
    rcases best_rssi_loop_spec ps 0 none intMin32 with ⟨heq, hle⟩ |
      ⟨k0, hk0, heq, _, _, _⟩
    · have hlen : 0 < ps.length := List.length_pos.mpr hne
      have hmem : ps.getD 0 dfltPeer ∈ ps := by
        rw [List.getD_eq_getElem _ _ hlen]
        exact List.getElem_mem hlen
      exact absurd (hle 0 hlen) (not_le.mpr (hbound _ hmem))
    · rw [select_highest_rssi, heq]
      rfl

/-- A non-empty MAC filter that parses but matches no peer in the counted
prefix makes find-peer-by-MAC return nothing. -/
theorem find_peer_no_match (ps : List DeviceInfo) (n : Nat) (f : String)
    (fm : Mac) (hne : f ≠ "") (hparse : parse_mac_address f = some fm)
    (hnom : ∀ p ∈ ps.take n, p.mac ≠ fm) :
    wifi_p2p_find_peer_by_mac (some ps) n (some f) = none := by
  unfold wifi_p2p_find_peer_by_mac
  dsimp only
  by_cases hn : n = 0
  · rw [if_pos hn]
  · rw [if_neg hn, if_neg hne, hparse]
    simp only [List.find?_eq_none, decide_eq_true_eq]
    exact hnom

/-- When the MAC filter is configured and selection yields no peer, the
connect handler issues no connect call and ends the attempt. -/
theorem connect_handler_no_target (cfg : AppConfig) (s : SysState)
    (o : ConnectOracle) (hne : cfg.target_peer_mac ≠ "")
    (hnone : wifi_p2p_find_peer_by_mac (some s.discovered_peers)
      s.discovered_peer_count (some cfg.target_peer_mac) = none) :
    (p2p_connect_handler cfg s o).2 = false ∧
    (p2p_connect_handler cfg s o).1.p2p_pairing_in_progress = false := by
  have htarget : connect_target_peer cfg s.discovered_peers
      s.discovered_peer_count = none := by
    unfold connect_target_peer
    rw [if_neg hne]
    exact hnone
  unfold p2p_connect_handler
  by_cases h0 : s.discovered_peer_count = 0
  · rw [if_pos h0]; exact ⟨rfl, rfl⟩
  · rw [if_neg h0]
    dsimp only
    rw [htarget]
    exact ⟨rfl, rfl⟩

/-- The three-peer discovery result of the spec scenario, with RSSI values
-70, -40, -55 dBm in first-seen order. -/
def rssiDemoPeers : List DeviceInfo :=
  [⟨[1, 0, 0, 0, 0, 1], "peerA", -70⟩,
   ⟨[1, 0, 0, 0, 0, 2], "peerB", -40⟩,
   ⟨[1, 0, 0, 0, 0, 3], "peerC", -55⟩]

/-- C5: peer selection is the deterministic function `connect_target_peer`
of the peer list and the filter; with an empty filter it picks the
highest-RSSI peer (index 1 for RSSI values [-70, -40, -55]), earliest-seen
first on ties; with a non-empty filter matching no peer it selects nothing
and the connect handler ends the attempt without issuing a connect call. -/
theorem c5_peer_selection :
    (select_highest_rssi rssiDemoPeers = some 1 ∧
      connect_target_peer ⟨30, 15, 2437, ""⟩ rssiDemoPeers 3 =
        some ⟨[1, 0, 0, 0, 0, 2], "peerB", -40⟩) ∧
    (∀ (ps : List DeviceInfo) (k : Nat), select_highest_rssi ps = some k →
      k < ps.length ∧
      (∀ j, j < ps.length →
        (ps.getD j dfltPeer).rssi ≤ (ps.getD k dfltPeer).rssi) ∧
      (∀ j, j < k →
        (ps.getD j dfltPeer).rssi < (ps.getD k dfltPeer).rssi)) ∧
    (∀ ps : List DeviceInfo, ps ≠ [] → (∀ p ∈ ps, intMin32 < p.rssi) →
      (select_highest_rssi ps).isSome = true) ∧
    (∀ (ps : List DeviceInfo) (n : Nat) (f : String) (fm : Mac),
      f ≠ "" → parse_mac_address f = some fm →
      (∀ p ∈ ps.take n, p.mac ≠ fm) →
      wifi_p2p_find_peer_by_mac (some ps) n (some f) = none) ∧
    (∀ (cfg : AppConfig) (s : SysState) (o : ConnectOracle),
      cfg.target_peer_mac ≠ "" →
      wifi_p2p_find_peer_by_mac (some s.discovered_peers)
        s.discovered_peer_count (some cfg.target_peer_mac) = none →
      (p2p_connect_handler cfg s o).2 = false ∧
      (p2p_connect_handler cfg s o).1.p2p_pairing_in_progress = false) :=
  ⟨⟨by decide, by decide⟩, select_highest_rssi_spec.1,
   select_highest_rssi_spec.2, find_peer_no_match, connect_handler_no_target⟩

/-- Witness for C5's conditional clauses: maximality at the demo list, a
concrete parsed filter matching none of the demo peers, and the resulting
connect handler outcome. -/
theorem c5_peer_selection_witness :
    ((rssiDemoPeers.getD 0 dfltPeer).rssi ≤
        (rssiDemoPeers.getD 1 dfltPeer).rssi) ∧
    (select_highest_rssi rssiDemoPeers).isSome = true ∧
    wifi_p2p_find_peer_by_mac (some rssiDemoPeers) 3
        (some "aa:bb:cc:dd:ee:ff") = none ∧
    (p2p_connect_handler ⟨30, 15, 2437, "aa:bb:cc:dd:ee:ff"⟩
        ⟨p2pInitCtx, true, rssiDemoPeers, 3, false⟩
        sampleConnectOracle).2 = false :=
  ⟨(c5_peer_selection.2.1 rssiDemoPeers 1 c5_peer_selection.1.1).2.1 0
      (by decide),
   c5_peer_selection.2.2.1 rssiDemoPeers (by decide) (by decide),
   c5_peer_selection.2.2.2.1 rssiDemoPeers 3 "aa:bb:cc:dd:ee:ff"
      [170, 187, 204, 221, 238, 255] (by decide) (by decide) (by decide),
   (c5_peer_selection.2.2.2.2 ⟨30, 15, 2437, "aa:bb:cc:dd:ee:ff"⟩
      ⟨p2pInitCtx, true, rssiDemoPeers, 3, false⟩ sampleConnectOracle
      (by decide)
      (c5_peer_selection.2.2.2.1 rssiDemoPeers 3 "aa:bb:cc:dd:ee:ff"
        [170, 187, 204, 221, 238, 255] (by decide) (by decide)
        (by decide))).1⟩
